/-
Verification of the KaajAI loan-analysis backend.

The deterministic scoring pipeline (backend/agents/financial_analyzer.py,
risk_assessor.py, memo_generator.py, orchestrator.py, api/routes.py) is
embedded shallowly:

* Python floats are modelled as elements of a linear ordered field with a
  floor (instantiated at ℚ for the exact-decimal functions, and at ℝ for
  the parts that use `math.sqrt` via numpy's standard deviation).
* `round(x, n)` is Python's round-half-to-even on `x * 10^n`.
* `int(x)` is truncation toward zero.
* Python dicts with a fixed key set become structures; a dict that may be
  absent (`tax_data`) becomes an `Option`.
* String constants (severities, flag identifiers, decisions, conditions)
  are kept as Lean `String` literals.  Decline-reason entries are modelled
  by the inductive `DeclineMsg` (one constructor per distinct Python
  message, carrying the interpolated DSCR where the source interpolates
  it); an entry may be Python's `None`, hence lists of `Option DeclineMsg`.
* The flag dicts' human-readable `message` fields and the LLM-generated
  memo text are opaque presentation data and are not modelled; flags are
  modelled by their severity and identifier.
-/
import Mathlib

/-! ## Python numeric primitives -/

variable {α : Type*} [LinearOrderedField α] [FloorRing α]

/-- Python `int(x)`: truncation toward zero. -/
def truncToward0 (x : α) : ℤ :=
  if 0 ≤ x then ⌊x⌋ else ⌈x⌉

/-- Round to the nearest integer, ties to the even integer
(the rounding mode of Python's built-in `round`). -/
def roundHalfEven (x : α) : ℤ :=
  if x - ⌊x⌋ < 1 / 2 then ⌊x⌋
  else if 1 / 2 < x - ⌊x⌋ then ⌊x⌋ + 1
  else if ⌊x⌋ % 2 = 0 then ⌊x⌋ else ⌊x⌋ + 1

/-- Python `round(x, n)` on exact values. -/
def pyRound (x : α) (n : ℕ) : α :=
  (roundHalfEven (x * 10 ^ n) : α) / 10 ^ n

theorem roundHalfEven_eq_floor_or_succ (x : α) :
    roundHalfEven x = ⌊x⌋ ∨ roundHalfEven x = ⌊x⌋ + 1 := by
  unfold roundHalfEven
  split_ifs <;> simp

theorem floor_le_roundHalfEven (x : α) : ⌊x⌋ ≤ roundHalfEven x := by
  rcases roundHalfEven_eq_floor_or_succ x with h | h <;> omega

theorem roundHalfEven_nonneg {x : α} (hx : 0 ≤ x) : 0 ≤ roundHalfEven x := by
  have h1 : (0 : ℤ) ≤ ⌊x⌋ := by
    rw [Int.le_floor]; exact_mod_cast hx
  have := floor_le_roundHalfEven x
  omega

theorem pyRound_nonneg {x : α} (hx : 0 ≤ x) (n : ℕ) : 0 ≤ pyRound x n := by
  unfold pyRound
  apply div_nonneg _ (by positivity)
  have : (0 : ℤ) ≤ roundHalfEven (x * 10 ^ n) :=
    roundHalfEven_nonneg (by positivity)
  exact_mod_cast this

theorem pyRound_pos {x : α} {n : ℕ} (hx : 1 / 10 ^ n ≤ x) : 0 < pyRound x n := by
  unfold pyRound
  have hpow : (0 : α) < 10 ^ n := by positivity
  have hge : (1 : α) ≤ x * 10 ^ n := by
    rw [div_le_iff₀ hpow] at hx
    linarith
  have h1 : (1 : ℤ) ≤ ⌊x * 10 ^ n⌋ := by
    rw [Int.le_floor]; exact_mod_cast hge
  have h2 : (1 : ℤ) ≤ roundHalfEven (x * 10 ^ n) :=
    le_trans h1 (floor_le_roundHalfEven _)
  have h3 : (0 : α) < (roundHalfEven (x * 10 ^ n) : α) := by
    exact_mod_cast lt_of_lt_of_le zero_lt_one h2
  exact div_pos h3 hpow

theorem pyRound_zero (n : ℕ) : pyRound (0 : α) n = 0 := by
  unfold pyRound roundHalfEven
  norm_num

theorem truncToward0_clamp_nonneg (x : α) :
    0 ≤ truncToward0 (max 0 (min 100 x)) := by
  unfold truncToward0
  rw [if_pos (le_max_left _ _)]
  rw [Int.le_floor]
  exact_mod_cast le_max_left _ _

theorem truncToward0_clamp_le_100 (x : α) :
    truncToward0 (max 0 (min 100 x)) ≤ 100 := by
  unfold truncToward0
  rw [if_pos (le_max_left _ _)]
  have h : max 0 (min 100 x) ≤ (100 : α) :=
    max_le (by norm_num) (min_le_left _ _)
  calc ⌊max 0 (min 100 x)⌋ ≤ ⌊(100 : α)⌋ := Int.floor_le_floor h
    _ = 100 := by norm_num

/-! ## Risk Assessor (backend/agents/risk_assessor.py)

A risk flag dict is modelled by its `severity` and `flag` identifier
strings; the formatted `message` field is presentation-only and omitted. -/

structure RiskFlag where
  severity : String
  flag : String
deriving DecidableEq, Repr

/-- Python `check_low_dscr`: flag if `dscr < 1.25`. -/
def check_low_dscr (dscr : α) : Option RiskFlag :=
  if dscr < 5 / 4 then some ⟨"HIGH", "LOW_DSCR"⟩ else none

/-- Python `check_unstable_revenue`: flag if `volatility > 0.40`. -/
def check_unstable_revenue (volatility : α) : Option RiskFlag :=
  if volatility > 2 / 5 then some ⟨"MEDIUM", "UNSTABLE_REVENUE"⟩ else none

/-- Python `check_cash_flow_issues`: flag if `nsf_fees > 3`. -/
def check_cash_flow_issues (nsf_fees : ℤ) : Option RiskFlag :=
  if nsf_fees > 3 then some ⟨"HIGH", "CASH_FLOW_ISSUES"⟩ else none

/-- Python `check_high_leverage`: flag if `debt_to_revenue > 0.50`. -/
def check_high_leverage (debt_to_revenue : α) : Option RiskFlag :=
  if debt_to_revenue > 1 / 2 then some ⟨"MEDIUM", "HIGH_LEVERAGE"⟩ else none

/-- Python `check_negative_cash_flow`: flag if `avg_monthly_cash_flow < 0`. -/
def check_negative_cash_flow (avg_monthly_cash_flow : α) : Option RiskFlag :=
  if avg_monthly_cash_flow < 0 then some ⟨"HIGH", "NEGATIVE_CASH_FLOW"⟩ else none

/-- Python `check_declining_revenue`: flag if `revenue_trend < -0.10`. -/
def check_declining_revenue (revenue_trend : α) : Option RiskFlag :=
  if revenue_trend < -(1 / 10) then some ⟨"MEDIUM", "DECLINING_REVENUE"⟩ else none

/-- Python `calculate_risk_level` from risk_assessor.py. -/
def calculate_risk_level (flags : List RiskFlag) : String :=
  if flags = [] then "LOW"
  else
    if (flags.filter (fun f => f.severity = "HIGH")).length > 0 then "HIGH"
    else if (flags.filter (fun f => f.severity = "MEDIUM")).length ≥ 3 then "HIGH"
    else if (flags.filter (fun f => f.severity = "MEDIUM")).length ≥ 1 then "MODERATE"
    else "LOW"

/-- The financial-metrics dict produced by `FinancialAnalyzerAgent.analyze`
(the value under its `"metrics"` key). -/
structure Metrics (α : Type*) where
  avg_monthly_revenue : α
  revenue_volatility : α
  avg_monthly_cash_flow : α
  dscr : α
  debt_to_revenue : α
  annual_revenue : α
  net_income : α
  stability_score : ℤ
  total_debt : α
  revenue_trend : α

/-- Python `detect_positive_signals` from risk_assessor.py. -/
def detect_positive_signals (metrics : Metrics α) (nsf_fees : ℤ) : List String :=
  (if metrics.avg_monthly_cash_flow > 10000 then ["Strong cash flow reserves"] else []) ++
  (if metrics.dscr ≥ 7 / 4 then ["Excellent DSCR"]
   else if metrics.dscr ≥ 3 / 2 then ["Strong DSCR"]
   else if metrics.dscr ≥ 5 / 4 then ["Adequate DSCR"] else []) ++
  (if metrics.revenue_volatility < 1 / 5 then ["Low revenue volatility"] else []) ++
  (if metrics.stability_score ≥ 80 then ["High business stability"]
   else if metrics.stability_score ≥ 70 then ["Good business stability"] else []) ++
  (if metrics.revenue_trend > 3 / 20 then ["Strong revenue growth"]
   else if metrics.revenue_trend > 0 then ["Growing revenue"] else []) ++
  (if nsf_fees = 0 then ["Clean payment history"] else []) ++
  (if metrics.debt_to_revenue < 3 / 10 then ["Low financial leverage"] else [])

/-- The bank-statement part of the extracted data. -/
structure BankData (α : Type*) where
  monthly_deposits : List α
  monthly_withdrawals : List α
  nsf_fees : ℤ

/-- The tax-return part of the extracted data (only the fields the
analyzer reads). -/
structure TaxData (α : Type*) where
  gross_revenue : α
  net_income : α

/-- The `extracted_data` dict; `tax_data = none` models the empty dict
supplied when no tax filing exists (all its `get`s default to 0). -/
structure ExtractedData (α : Type*) where
  bank_data : BankData α
  tax_data : Option (TaxData α)
  existing_debt : α

/-- The `risk_assessment` dict produced by `RiskAssessorAgent.assess`. -/
structure RiskAssessment where
  risk_level : String
  flags : List RiskFlag
  positive_signals : List String

/-- Python `RiskAssessorAgent.assess`: runs the six checks in their fixed order,
derives the risk level, and detects positive signals. -/
def RiskAssessorAgent.assess (financial_metrics : Metrics α)
    (extracted_data : ExtractedData α) : RiskAssessment :=
  let metrics := financial_metrics
  let nsf_fees := extracted_data.bank_data.nsf_fees
  let flags :=
    (check_low_dscr metrics.dscr).toList ++
    (check_unstable_revenue metrics.revenue_volatility).toList ++
    (check_cash_flow_issues nsf_fees).toList ++
    (check_high_leverage metrics.debt_to_revenue).toList ++
    (check_negative_cash_flow metrics.avg_monthly_cash_flow).toList ++
    (check_declining_revenue metrics.revenue_trend).toList
  { risk_level := calculate_risk_level flags
    flags := flags
    positive_signals := detect_positive_signals metrics nsf_fees }

/-! ## Decision engine (backend/agents/memo_generator.py) -/

/-- Decline-reason entries of `determine_recommendation`.  Each
constructor stands for one distinct Python message string; the two
DSCR-specific messages interpolate the DSCR value, so those constructors
carry it. -/
inductive DeclineMsg (α : Type*) where
  | multipleCriticalRiskFactors
  | dscrInsufficientCapacity (dscr : α)
  | highVolatilityOrCashFlowConcerns
  | dscrBelowMinimumThreshold (dscr : α)
  | insufficientCashFlowToServiceDebt
deriving DecidableEq, Repr

/-- The dict returned by `determine_recommendation`.  In the Python
source `reasons` is a list whose entries are strings **or the value
`None`** (the conditional expression in the first DECLINE branch yields
`None` when `dscr >= 1.0`), hence `Option`. -/
structure Recommendation (α : Type*) where
  decision : String
  reasons : List (Option (DeclineMsg α))
  conditions : List String

/-- Python `determine_recommendation` from memo_generator.py. -/
def determine_recommendation (risk_level : String) (dscr : α)
    (stability_score : ℤ) (flags : List RiskFlag) : Recommendation α :=
  let high_severity_flags := flags.filter (fun f => f.severity = "HIGH")
  if risk_level = "HIGH" ∧ high_severity_flags.length ≥ 2 then
    { decision := "DECLINE"
      reasons := [some .multipleCriticalRiskFactors,
                  if dscr < 1 then some (.dscrInsufficientCapacity dscr) else none,
                  some .highVolatilityOrCashFlowConcerns]
      conditions := [] }
  else if dscr < 1 then
    { decision := "DECLINE"
      reasons := [some (.dscrBelowMinimumThreshold dscr),
                  some .insufficientCashFlowToServiceDebt]
      conditions := [] }
  else if risk_level = "HIGH" ∨ risk_level = "MODERATE" then
    let conditions :=
      (if dscr < 27 / 20 then ["Require personal guarantee from business owner"] else []) ++
      (if stability_score < 70 then ["Require quarterly financial reporting"] else []) ++
      (if flags.any (fun f => f.flag = "UNSTABLE_REVENUE") then
        ["Monitor cash flow closely for first 12 months"] else []) ++
      (if flags.any (fun f => f.flag = "HIGH_LEVERAGE") then
        ["Reduce loan amount to 80% of request"] else []) ++
      (if flags.any (fun f => f.flag = "CASH_FLOW_ISSUES") then
        ["Establish cash reserve requirement of 3 months expenses"] else [])
    let conditions := if conditions = [] then
        ["Standard terms with enhanced monitoring"] else conditions
    { decision := "APPROVE_WITH_CONDITIONS", conditions := conditions, reasons := [] }
  else
    { decision := "APPROVE", conditions := [], reasons := [] }

/-- The risk-level component of the underwriting score:
`risk_scores.get(risk_level, 10)` over the dict
`LOW ↦ 40, MODERATE ↦ 25, HIGH ↦ 10`. -/
def riskComponent (risk_level : String) : α :=
  if risk_level = "LOW" then 40
  else if risk_level = "MODERATE" then 25
  else if risk_level = "HIGH" then 10
  else 10

/-- The stepwise DSCR component of the underwriting score. -/
def dscrComponent (dscr : α) : α :=
  if dscr ≥ 7 / 4 then 30
  else if dscr ≥ 3 / 2 then 25
  else if dscr ≥ 5 / 4 then 20
  else if dscr ≥ 1 then 10
  else 0

/-- Python `calculate_underwriting_score` from memo_generator.py. -/
def calculate_underwriting_score (risk_level : String) (dscr : α)
    (stability_score : ℤ) (revenue_volatility : α) : ℤ :=
  let risk_score : α := riskComponent risk_level
  let dscr_score : α := dscrComponent dscr
  let stability_contribution : α := ((stability_score : α) / 100) * 20
  let volatility_score : α := max 0 ((1 - min revenue_volatility 1) * 10)
  let total := risk_score + dscr_score + stability_contribution + volatility_score
  truncToward0 (max 0 (min 100 total))

/-- The structured fields of the dict under `"credit_memo_output"`
returned by `MemoGeneratorAgent.generate`.  The free-text `credit_memo`
(an LLM response or the deterministic template fallback) is opaque
presentation data and is not modelled. -/
structure CreditMemoOutput (α : Type*) where
  recommendation : String
  underwriting_score : ℤ
  conditions : List String
  reasons : List (Option (DeclineMsg α))

/-- The structured part of `MemoGeneratorAgent.generate`: recommendation
and underwriting score from the metrics and the risk assessment. -/
def MemoGeneratorAgent.generate (financial_metrics : Metrics α)
    (risk_assessment : RiskAssessment) : CreditMemoOutput α :=
  let metrics := financial_metrics
  let assessment := risk_assessment
  let recommendation := determine_recommendation assessment.risk_level metrics.dscr
    metrics.stability_score assessment.flags
  let underwriting_score := calculate_underwriting_score assessment.risk_level
    metrics.dscr metrics.stability_score metrics.revenue_volatility
  { recommendation := recommendation.decision
    underwriting_score := underwriting_score
    conditions := recommendation.conditions
    reasons := recommendation.reasons }

/-! ## Financial analyzer (backend/agents/financial_analyzer.py) -/

/-- Python `calculate_avg_monthly_revenue`: mean of the deposit series
rounded to 2 decimals; 0.0 for an empty series. -/
def calculate_avg_monthly_revenue (monthly_deposits : List α) : α :=
  if monthly_deposits = [] then 0
  else pyRound (monthly_deposits.sum / (monthly_deposits.length : α)) 2

/-- Exact (unrounded) value of the amortization formula
`P * r(1+r)^n / ((1+r)^n - 1)` with `r` the monthly rate, falling back to
`P/n` when the annual rate is 0.  Helper used to phrase positivity of the
rounded payment. -/
def exactMonthlyPayment (loan_amount annual_interest_rate : α)
    (term_months : ℤ) : α :=
  if annual_interest_rate = 0 then loan_amount / (term_months : α)
  else
    let monthly_rate := annual_interest_rate / 12
    loan_amount * ((monthly_rate * (1 + monthly_rate) ^ term_months) /
      ((1 + monthly_rate) ^ term_months - 1))

/-- Python `calculate_monthly_payment` from financial_analyzer.py. -/
def calculate_monthly_payment (loan_amount annual_interest_rate : α)
    (term_months : ℤ) : α :=
  if loan_amount = 0 ∨ term_months = 0 then 0
  else if annual_interest_rate = 0 then
    pyRound (loan_amount / (term_months : α)) 2
  else
    let monthly_rate := annual_interest_rate / 12
    let numerator := monthly_rate * (1 + monthly_rate) ^ term_months
    let denominator := (1 + monthly_rate) ^ term_months - 1
    pyRound (loan_amount * (numerator / denominator)) 2

/-- Python `calculate_debt_to_revenue_ratio` from financial_analyzer.py. -/
def calculate_debt_to_revenue_ratio (total_debt annual_revenue : α) : α :=
  if annual_revenue = 0 then 0
  else pyRound (total_debt / annual_revenue) 2

/-- Python `calculate_stability_score` from financial_analyzer.py. -/
def calculate_stability_score (revenue_volatility : α)
    (business_age_years nsf_fees_count : ℤ) (revenue_trend : α) : ℤ :=
  let volatility_score : α := max 0 ((1 - min revenue_volatility 1) * 40)
  let age_score : α := ((min business_age_years 10 : ℤ) : α) / 10 * 30
  let nsf_score : α :=
    if nsf_fees_count = 0 then 30
    else if nsf_fees_count ≤ 2 then 20
    else if nsf_fees_count ≤ 5 then 10
    else 0
  let base_score := volatility_score + age_score + nsf_score
  let trend_bonus := revenue_trend * 10
  let final_score := base_score + trend_bonus
  truncToward0 (max 0 (min 100 final_score))

/-- Python `calculate_revenue_volatility`: sample standard deviation
(numpy `std` with `ddof=1`) over the mean, rounded to 4 decimals; 0.0
when the series has at most one element or zero mean.  Stated over ℝ
because of the square root. -/
noncomputable def calculate_revenue_volatility (monthly_revenue : List ℝ) : ℝ :=
  if monthly_revenue.length ≤ 1 then 0
  else
    let mean := monthly_revenue.sum / (monthly_revenue.length : ℝ)
    if mean = 0 then 0
    else
      let std_dev := Real.sqrt
        ((monthly_revenue.map (fun x => (x - mean) ^ 2)).sum /
          ((monthly_revenue.length : ℝ) - 1))
      pyRound (std_dev / mean) 4

/-- The `loan_request` dict the orchestrator assembles for the analyzer. -/
structure LoanRequest (α : Type*) where
  loan_amount : α
  annual_interest_rate : α
  term_months : ℤ
  business_age_years : ℤ

/-- Python `FinancialAnalyzerAgent.analyze` from financial_analyzer.py:
computes the full metrics dict from the extracted data and loan request. -/
noncomputable def FinancialAnalyzerAgent.analyze (extracted_data : ExtractedData ℝ)
    (loan_request : LoanRequest ℝ) : Metrics ℝ :=
  let monthly_deposits := extracted_data.bank_data.monthly_deposits
  let monthly_withdrawals := extracted_data.bank_data.monthly_withdrawals
  let nsf_fees := extracted_data.bank_data.nsf_fees
  let annual_revenue := match extracted_data.tax_data with
    | some t => t.gross_revenue
    | none => 0
  let net_income := match extracted_data.tax_data with
    | some t => t.net_income
    | none => 0
  let loan_amount := loan_request.loan_amount
  let annual_interest_rate := loan_request.annual_interest_rate
  let term_months := loan_request.term_months
  let business_age_years := loan_request.business_age_years
  let existing_debt := extracted_data.existing_debt
  let avg_monthly_revenue := calculate_avg_monthly_revenue monthly_deposits
  let revenue_volatility := calculate_revenue_volatility monthly_deposits
  let avg_monthly_cash_flow :=
    if monthly_deposits ≠ [] ∧ monthly_withdrawals ≠ [] then
      monthly_deposits.sum / (monthly_deposits.length : ℝ) -
        monthly_withdrawals.sum / (monthly_withdrawals.length : ℝ)
    else 0
  let new_loan_payment :=
    calculate_monthly_payment loan_amount annual_interest_rate term_months
  let existing_debt_payment :=
    calculate_monthly_payment existing_debt annual_interest_rate term_months
  let total_monthly_payment := new_loan_payment + existing_debt_payment
  let dscr :=
    if total_monthly_payment = 0 then 0
    else pyRound (avg_monthly_cash_flow / total_monthly_payment) 2
  let total_debt := existing_debt + loan_amount
  let revenue_for_ratio :=
    if annual_revenue > 0 then annual_revenue else avg_monthly_revenue * 12
  let debt_to_revenue := calculate_debt_to_revenue_ratio total_debt revenue_for_ratio
  let revenue_trend :=
    if 12 ≤ monthly_deposits.length then
      let first_half := (monthly_deposits.take 6).sum / 6
      let second_half := ((monthly_deposits.drop 6).take 6).sum / 6
      if first_half > 0 then (second_half - first_half) / first_half else 0
    else 0
  let stability_score := calculate_stability_score revenue_volatility
    business_age_years nsf_fees revenue_trend
  { avg_monthly_revenue := pyRound avg_monthly_revenue 2
    revenue_volatility := revenue_volatility
    avg_monthly_cash_flow := pyRound avg_monthly_cash_flow 2
    dscr := dscr
    debt_to_revenue := debt_to_revenue
    annual_revenue := revenue_for_ratio
    net_income := net_income
    stability_score := stability_score
    total_debt := total_debt
    revenue_trend := pyRound revenue_trend 4 }

/-! ## Orchestrator (backend/agents/orchestrator.py) and the /quick-score
route (backend/api/routes.py) -/

/-- The `business_info` dict assembled by the routes (every key is always
populated from the validated request, so the orchestrator's `get`
defaults never fire). -/
structure BusinessInfo (α : Type*) where
  business_name : String
  industry : String
  loan_amount : α
  annual_interest_rate : α
  term_months : ℤ
  business_age_years : ℤ

/-- The success dict of `LoanAnalysisOrchestrator.analyze_loan_package`
(its `try` body; `status` is always the literal `"completed"` there). -/
structure AnalysisResult (α : Type*) where
  status : String
  financial_metrics : Metrics α
  risk_assessment : RiskAssessment
  recommendation : String
  underwriting_score : ℤ
  conditions : List String
  decline_reasons : List (Option (DeclineMsg α))

/-- The `try` body of `LoanAnalysisOrchestrator.analyze_loan_package`:
analyzer, then risk assessor, then memo generator. -/
noncomputable def LoanAnalysisOrchestrator.analyze_loan_package
    (extracted_data : ExtractedData ℝ) (business_info : BusinessInfo ℝ) :
    AnalysisResult ℝ :=
  let loan_request : LoanRequest ℝ :=
    { loan_amount := business_info.loan_amount
      annual_interest_rate := business_info.annual_interest_rate
      term_months := business_info.term_months
      business_age_years := business_info.business_age_years }
  let financial_metrics := FinancialAnalyzerAgent.analyze extracted_data loan_request
  let risk_assessment := RiskAssessorAgent.assess financial_metrics extracted_data
  let memo_output := MemoGeneratorAgent.generate financial_metrics risk_assessment
  { status := "completed"
    financial_metrics := financial_metrics
    risk_assessment := risk_assessment
    recommendation := memo_output.recommendation
    underwriting_score := memo_output.underwriting_score
    conditions := memo_output.conditions
    decline_reasons := memo_output.reasons }

/-- The `try` body of `LoanAnalysisOrchestrator.quick_score`: analyzer
and risk assessor only, then `calculate_underwriting_score` directly. -/
noncomputable def LoanAnalysisOrchestrator.quick_score
    (extracted_data : ExtractedData ℝ) (business_info : BusinessInfo ℝ) : ℤ :=
  let loan_request : LoanRequest ℝ :=
    { loan_amount := business_info.loan_amount
      annual_interest_rate := business_info.annual_interest_rate
      term_months := business_info.term_months
      business_age_years := business_info.business_age_years }
  let financial_metrics := FinancialAnalyzerAgent.analyze extracted_data loan_request
  let risk_assessment := RiskAssessorAgent.assess financial_metrics extracted_data
  let metrics := financial_metrics
  let assessment := risk_assessment
  calculate_underwriting_score assessment.risk_level metrics.dscr
    metrics.stability_score metrics.revenue_volatility

/-- Envelope distinguishing the success dict of `analyze_loan_package`
from the failure dict its `except` handler builds
(`status="failed"` together with the fault's description). -/
structure OrchestratorEnvelope (α : Type*) where
  status : String
  error : Option String
  result : Option (AnalysisResult α)

/-- Python `LoanAnalysisOrchestrator.analyze_loan_package` with its
`try`/`except`: an internal fault (the exception message, if any, that
the deterministic body raises) is surfaced as the failure dict. -/
noncomputable def LoanAnalysisOrchestrator.analyze_loan_package_run
    (extracted_data : ExtractedData ℝ) (business_info : BusinessInfo ℝ) :
    Option String → OrchestratorEnvelope ℝ
  | none =>
    { status := "completed"
      error := none
      result := some (LoanAnalysisOrchestrator.analyze_loan_package
        extracted_data business_info) }
  | some e =>
    { status := "failed"
      error := some e
      result := none }

/-- Python `LoanAnalysisOrchestrator.quick_score` with its
`try`/`except`: the handler logs the fault and returns the score `0`. -/
noncomputable def LoanAnalysisOrchestrator.quick_score_run
    (extracted_data : ExtractedData ℝ) (business_info : BusinessInfo ℝ) :
    Option String → ℤ
  | none => LoanAnalysisOrchestrator.quick_score extracted_data business_info
  | some _ => 0

/-- The JSON body the `/quick-score` route returns. -/
structure QuickScoreResponse where
  business_name : String
  underwriting_score : ℤ
  status : String

/-- Python route `quick_score_loan` from api/routes.py: wraps the
orchestrator's quick score with the literal status `"completed"`. -/
noncomputable def quick_score_loan (extracted_data : ExtractedData ℝ)
    (business_info : BusinessInfo ℝ) (fault : Option String) :
    QuickScoreResponse :=
  { business_name := business_info.business_name
    underwriting_score :=
      LoanAnalysisOrchestrator.quick_score_run extracted_data business_info fault
    status := "completed" }

/-! ## Claim theorems -/

/-- C1: for every risk-level string (including unrecognized ones), every
DSCR value, every stability score, and every revenue volatility value,
`calculate_underwriting_score` equals the clamp to [0,100] of
riskComponent + dscrComponent + stabilityComponent + volatilityComponent
truncated to an integer, and that integer lies in [0,100]. -/
theorem underwriting_score_clamped_sum (risk_level : String) (dscr : ℚ)
    (stability_score : ℤ) (revenue_volatility : ℚ) :
    calculate_underwriting_score risk_level dscr stability_score revenue_volatility =
      truncToward0 (max 0 (min 100 (riskComponent risk_level + dscrComponent dscr +
        ((stability_score : ℚ) / 100) * 20 +
        max 0 ((1 - min revenue_volatility 1) * 10)))) ∧
    0 ≤ calculate_underwriting_score risk_level dscr stability_score revenue_volatility ∧
    calculate_underwriting_score risk_level dscr stability_score revenue_volatility ≤ 100 := by
  unfold calculate_underwriting_score
  exact ⟨rfl, truncToward0_clamp_nonneg _, truncToward0_clamp_le_100 _⟩

/-- C6: `calculate_stability_score` is total and, for any inputs
whatsoever (including negative volatility, age, NSF count, or trend),
returns the clamp to [0,100] of the component sum truncated toward zero,
an integer in [0,100]. -/
theorem stability_score_total_clamped (revenue_volatility : ℚ)
    (business_age_years nsf_fees_count : ℤ) (revenue_trend : ℚ) :
    calculate_stability_score revenue_volatility business_age_years
        nsf_fees_count revenue_trend =
      truncToward0 (max 0 (min 100
        (max 0 ((1 - min revenue_volatility 1) * 40) +
         ((min business_age_years 10 : ℤ) : ℚ) / 10 * 30 +
         (if nsf_fees_count = 0 then (30 : ℚ)
          else if nsf_fees_count ≤ 2 then 20
          else if nsf_fees_count ≤ 5 then 10
          else 0) +
         revenue_trend * 10))) ∧
    0 ≤ calculate_stability_score revenue_volatility business_age_years
        nsf_fees_count revenue_trend ∧
    calculate_stability_score revenue_volatility business_age_years
        nsf_fees_count revenue_trend ≤ 100 := by
  unfold calculate_stability_score
  exact ⟨rfl, truncToward0_clamp_nonneg _, truncToward0_clamp_le_100 _⟩

/-- C2: each of the six risk checks is a strict inequality against its
threshold: an input exactly at the threshold produces no flag, an input
strictly past it produces exactly the documented severity and flag
identifier. -/
theorem risk_checks_strict_thresholds (d v l c t : ℚ) (n : ℤ) :
    (check_low_dscr d = some ⟨"HIGH", "LOW_DSCR"⟩ ↔ d < 5 / 4) ∧
    (check_low_dscr d = none ↔ 5 / 4 ≤ d) ∧
    check_low_dscr (5 / 4 : ℚ) = none ∧
    (check_unstable_revenue v = some ⟨"MEDIUM", "UNSTABLE_REVENUE"⟩ ↔ 2 / 5 < v) ∧
    (check_unstable_revenue v = none ↔ v ≤ 2 / 5) ∧
    check_unstable_revenue (2 / 5 : ℚ) = none ∧
    (check_cash_flow_issues n = some ⟨"HIGH", "CASH_FLOW_ISSUES"⟩ ↔ 3 < n) ∧
    (check_cash_flow_issues n = none ↔ n ≤ 3) ∧
    check_cash_flow_issues 3 = none ∧
    (check_high_leverage l = some ⟨"MEDIUM", "HIGH_LEVERAGE"⟩ ↔ 1 / 2 < l) ∧
    (check_high_leverage l = none ↔ l ≤ 1 / 2) ∧
    check_high_leverage (1 / 2 : ℚ) = none ∧
    (check_negative_cash_flow c = some ⟨"HIGH", "NEGATIVE_CASH_FLOW"⟩ ↔ c < 0) ∧
    (check_negative_cash_flow c = none ↔ 0 ≤ c) ∧
    check_negative_cash_flow (0 : ℚ) = none ∧
    (check_declining_revenue t = some ⟨"MEDIUM", "DECLINING_REVENUE"⟩ ↔ t < -(1 / 10)) ∧
    (check_declining_revenue t = none ↔ -(1 / 10) ≤ t) ∧
    check_declining_revenue (-(1 / 10) : ℚ) = none := by
  refine ⟨?_, ?_, ?_, ?_, ?_, ?_, ?_, ?_, ?_, ?_, ?_, ?_, ?_, ?_, ?_, ?_, ?_, ?_⟩
  · unfold check_low_dscr; split_ifs with h <;> simp [h]
  · unfold check_low_dscr; split_ifs with h
    · simp [not_le.mpr h]
    · simp [not_lt.mp h]
  · norm_num [check_low_dscr]
  · unfold check_unstable_revenue; split_ifs with h <;> simp [h]
  · unfold check_unstable_revenue; split_ifs with h
    · simp [not_le.mpr h]
    · simp [not_lt.mp h]
  · norm_num [check_unstable_revenue]
  · unfold check_cash_flow_issues; split_ifs with h <;> simp [h]
  · unfold check_cash_flow_issues; split_ifs with h
    · simp [not_le.mpr h]
    · simp [not_lt.mp h]
  · norm_num [check_cash_flow_issues]
  · unfold check_high_leverage; split_ifs with h <;> simp [h] <;> linarith
  · unfold check_high_leverage; split_ifs with h
    · simp [not_le.mpr h] <;> linarith
    · simp [not_lt.mp h] <;> linarith
  · norm_num [check_high_leverage]
  · unfold check_negative_cash_flow; split_ifs with h <;> simp [h]
  · unfold check_negative_cash_flow; split_ifs with h
    · simp [not_le.mpr h]
    · simp [not_lt.mp h]
  · norm_num [check_negative_cash_flow]
  · unfold check_declining_revenue; split_ifs with h <;> simp [h] <;> linarith
  · unfold check_declining_revenue; split_ifs with h
    · simp [not_le.mpr h] <;> linarith
    · simp [not_lt.mp h] <;> linarith
  · norm_num [check_declining_revenue]

/-- C3 counterexample: with risk level HIGH, two HIGH-severity flags and
`dscr = 1.1`, the decision is DECLINE but the returned reasons list is
not a list of decline-reason strings: its middle entry is Python's
`None` (the conditional expression yields `None` when `dscr >= 1.0`). -/
theorem decline_reasons_contain_none :
    (determine_recommendation "HIGH" (11 / 10 : ℚ) 50
      [⟨"HIGH", "LOW_DSCR"⟩, ⟨"HIGH", "CASH_FLOW_ISSUES"⟩]).decision = "DECLINE" ∧
    none ∈ (determine_recommendation "HIGH" (11 / 10 : ℚ) 50
      [⟨"HIGH", "LOW_DSCR"⟩, ⟨"HIGH", "CASH_FLOW_ISSUES"⟩]).reasons := by
  constructor
  · unfold determine_recommendation
    rw [if_pos ⟨rfl, by decide⟩]
  · unfold determine_recommendation
    rw [if_pos ⟨rfl, by decide⟩]
    rw [if_neg (by norm_num)]
    simp

/-- C3 (amended): for every flag list with at least two HIGH-severity
flags and risk level HIGH, `determine_recommendation` returns decision
DECLINE with empty conditions; the reasons list holds the generic
multi-factor reason and contains the DSCR-specific message exactly when
`dscr < 1.0` — but when `dscr ≥ 1.0` the slot of that message holds the
value `None` rather than being dropped, so the list is a list of strings
only in the `dscr < 1.0` case. -/
theorem decline_on_high_risk_two_high_flags (dscr : ℚ) (stability_score : ℤ)
    (flags : List RiskFlag)
    (h2 : 2 ≤ (flags.filter (fun f => f.severity = "HIGH")).length) :
    (determine_recommendation "HIGH" dscr stability_score flags).decision = "DECLINE" ∧
    (determine_recommendation "HIGH" dscr stability_score flags).conditions = [] ∧
    (determine_recommendation "HIGH" dscr stability_score flags).reasons =
      [some .multipleCriticalRiskFactors,
       if dscr < 1 then some (.dscrInsufficientCapacity dscr) else none,
       some .highVolatilityOrCashFlowConcerns] ∧
    (some (DeclineMsg.dscrInsufficientCapacity dscr) ∈
        (determine_recommendation "HIGH" dscr stability_score flags).reasons ↔
      dscr < 1) ∧
    some DeclineMsg.multipleCriticalRiskFactors ∈
      (determine_recommendation "HIGH" dscr stability_score flags).reasons := by
  have key : determine_recommendation "HIGH" dscr stability_score flags =
      { decision := "DECLINE"
        reasons := [some .multipleCriticalRiskFactors,
          if dscr < 1 then some (.dscrInsufficientCapacity dscr) else none,
          some .highVolatilityOrCashFlowConcerns]
        conditions := [] } := by
    unfold determine_recommendation
    rw [if_pos ⟨rfl, h2⟩]
  rw [key]
  refine ⟨rfl, rfl, rfl, ?_, ?_⟩
  · split_ifs with h <;> simp [h]
  · simp

/-- Witness for the amended C3 theorem at a concrete declined input. -/
theorem decline_on_high_risk_two_high_flags_witness :
    (determine_recommendation "HIGH" (9 / 10 : ℚ) 35
      [⟨"HIGH", "LOW_DSCR"⟩, ⟨"HIGH", "CASH_FLOW_ISSUES"⟩]).decision = "DECLINE" ∧
    (determine_recommendation "HIGH" (9 / 10 : ℚ) 35
      [⟨"HIGH", "LOW_DSCR"⟩, ⟨"HIGH", "CASH_FLOW_ISSUES"⟩]).conditions = [] :=
  ⟨(decline_on_high_risk_two_high_flags (9 / 10) 35
      [⟨"HIGH", "LOW_DSCR"⟩, ⟨"HIGH", "CASH_FLOW_ISSUES"⟩] (by decide)).1,
   (decline_on_high_risk_two_high_flags (9 / 10) 35
      [⟨"HIGH", "LOW_DSCR"⟩, ⟨"HIGH", "CASH_FLOW_ISSUES"⟩] (by decide)).2.1⟩

/-- C7 counterexample: `calculate_monthly_payment` is not strictly
positive for every `P > 0`, `n > 0`, `r ≥ 0`: at `P = 0.001`, `r = 0`,
`n = 1` the exact payment 0.001 rounds to 2 decimals as 0.0. -/
theorem monthly_payment_rounds_tiny_to_zero :
    (0 : ℚ) < 1 / 1000 ∧ (0 : ℤ) < 1 ∧ (0 : ℚ) ≤ 0 ∧
    calculate_monthly_payment (1 / 1000 : ℚ) 0 1 = 0 := by
  refine ⟨by norm_num, by norm_num, le_refl 0, ?_⟩
  unfold calculate_monthly_payment
  rw [if_neg (by norm_num), if_pos rfl]
  unfold pyRound roundHalfEven
  norm_num

/-- C7 (amended): for `P > 0`, `n > 0`, `r ≥ 0` the rounded monthly
payment is nonnegative, and it is strictly positive whenever the exact
(unrounded) amortization value is at least 0.01, the smallest amount
that survives rounding to 2 decimal places. -/
theorem monthly_payment_nonneg_and_pos (P r : ℚ) (n : ℤ)
    (hP : 0 < P) (hn : 0 < n) (hr : 0 ≤ r) :
    0 ≤ calculate_monthly_payment P r n ∧
    (1 / 100 ≤ exactMonthlyPayment P r n → 0 < calculate_monthly_payment P r n) := by
  have hkey : calculate_monthly_payment P r n = pyRound (exactMonthlyPayment P r n) 2 := by
    unfold calculate_monthly_payment exactMonthlyPayment
    rw [if_neg (by push_neg; exact ⟨ne_of_gt hP, ne_of_gt hn⟩)]
    split_ifs with h <;> rfl
  have hexact : 0 ≤ exactMonthlyPayment P r n := by
    unfold exactMonthlyPayment
    split_ifs with h
    · have : (0 : ℚ) < (n : ℚ) := by exact_mod_cast hn
      positivity
    · have hr' : 0 < r := lt_of_le_of_ne hr (Ne.symm h)
      have hmr : 0 < r / 12 := by positivity
      have hq : 1 < (1 + r / 12) ^ n := by
        have hbase : 1 < 1 + r / 12 := by linarith
        have hn' : n = (n.toNat : ℤ) := (Int.toNat_of_nonneg (le_of_lt hn)).symm
        rw [hn', zpow_natCast]
        exact one_lt_pow₀ hbase (by omega)
      have hnum : 0 < r / 12 * (1 + r / 12) ^ n := by positivity
      have hden : 0 < (1 + r / 12) ^ n - 1 := by linarith
      positivity
  rw [hkey]
  exact ⟨pyRound_nonneg hexact 2,
    fun hge => pyRound_pos (by norm_num; exact hge)⟩

/-- Witness for the amended C7 theorem at `P = 100`, `r = 0`, `n = 10`. -/
theorem monthly_payment_nonneg_and_pos_witness :
    0 ≤ calculate_monthly_payment (100 : ℚ) 0 10 ∧
    0 < calculate_monthly_payment (100 : ℚ) 0 10 :=
  ⟨(monthly_payment_nonneg_and_pos 100 0 10 (by norm_num) (by norm_num)
      (le_refl 0)).1,
   (monthly_payment_nonneg_and_pos 100 0 10 (by norm_num) (by norm_num)
      (le_refl 0)).2 (by norm_num [exactMonthlyPayment])⟩

/-! ### Helper lemmas for the assess invariant -/

theorem mem_toList_eq {β : Type*} {o : Option β} {a : β} (h : a ∈ o.toList) :
    o = some a := by
  cases o <;> simp_all [Option.toList]

theorem check_low_dscr_eq_some {d : α} {f : RiskFlag}
    (h : check_low_dscr d = some f) : f = ⟨"HIGH", "LOW_DSCR"⟩ := by
  unfold check_low_dscr at h
  split_ifs at h
  exact (Option.some.inj h).symm

theorem check_unstable_revenue_eq_some {v : α} {f : RiskFlag}
    (h : check_unstable_revenue v = some f) : f = ⟨"MEDIUM", "UNSTABLE_REVENUE"⟩ := by
  unfold check_unstable_revenue at h
  split_ifs at h
  exact (Option.some.inj h).symm

theorem check_cash_flow_issues_eq_some {n : ℤ} {f : RiskFlag}
    (h : check_cash_flow_issues n = some f) : f = ⟨"HIGH", "CASH_FLOW_ISSUES"⟩ := by
  unfold check_cash_flow_issues at h
  split_ifs at h
  exact (Option.some.inj h).symm

theorem check_high_leverage_eq_some {l : α} {f : RiskFlag}
    (h : check_high_leverage l = some f) : f = ⟨"MEDIUM", "HIGH_LEVERAGE"⟩ := by
  unfold check_high_leverage at h
  split_ifs at h
  exact (Option.some.inj h).symm

theorem check_negative_cash_flow_eq_some {c : α} {f : RiskFlag}
    (h : check_negative_cash_flow c = some f) : f = ⟨"HIGH", "NEGATIVE_CASH_FLOW"⟩ := by
  unfold check_negative_cash_flow at h
  split_ifs at h
  exact (Option.some.inj h).symm

theorem check_declining_revenue_eq_some {t : α} {f : RiskFlag}
    (h : check_declining_revenue t = some f) : f = ⟨"MEDIUM", "DECLINING_REVENUE"⟩ := by
  unfold check_declining_revenue at h
  split_ifs at h
  exact (Option.some.inj h).symm

/-- Every flag assembled by `assess` carries a HIGH or MEDIUM severity
and one of the six closed flag identifiers. -/
theorem assess_flags_wf (fm : Metrics α) (ed : ExtractedData α) :
    ∀ f ∈ (RiskAssessorAgent.assess fm ed).flags,
      (f.severity = "HIGH" ∨ f.severity = "MEDIUM") ∧
      f.flag ∈ ["LOW_DSCR", "UNSTABLE_REVENUE", "CASH_FLOW_ISSUES",
                "HIGH_LEVERAGE", "NEGATIVE_CASH_FLOW", "DECLINING_REVENUE"] := by
  intro f hf
  simp only [RiskAssessorAgent.assess, List.mem_append] at hf
  rcases hf with ((((h | h) | h) | h) | h) | h
  · rw [check_low_dscr_eq_some (mem_toList_eq h)]; simp
  · rw [check_unstable_revenue_eq_some (mem_toList_eq h)]; simp
  · rw [check_cash_flow_issues_eq_some (mem_toList_eq h)]; simp
  · rw [check_high_leverage_eq_some (mem_toList_eq h)]; simp
  · rw [check_negative_cash_flow_eq_some (mem_toList_eq h)]; simp
  · rw [check_declining_revenue_eq_some (mem_toList_eq h)]; simp

/-- On a nonempty flag list whose severities are all HIGH or MEDIUM, the
final else-LOW branch of `calculate_risk_level` is unreachable. -/
theorem calculate_risk_level_ne_low {flags : List RiskFlag}
    (hne : flags ≠ [])
    (hall : ∀ f ∈ flags, f.severity = "HIGH" ∨ f.severity = "MEDIUM") :
    calculate_risk_level flags ≠ "LOW" := by
  unfold calculate_risk_level
  rw [if_neg hne]
  split_ifs with h1 h2 h3
  · decide
  · decide
  · decide
  · exfalso
    obtain ⟨f, hf⟩ := List.exists_mem_of_ne_nil flags hne
    rcases hall f hf with hs | hs
    · apply h1
      have hmem : f ∈ flags.filter (fun f => f.severity = "HIGH") := by
        rw [List.mem_filter]
        exact ⟨hf, by simp [hs]⟩
      exact List.length_pos.mpr (List.ne_nil_of_mem hmem)
    · apply h3
      have hmem : f ∈ flags.filter (fun f => f.severity = "MEDIUM") := by
        rw [List.mem_filter]
        exact ⟨hf, by simp [hs]⟩
      exact List.length_pos.mpr (List.ne_nil_of_mem hmem)

/-- C10: every flag produced by `RiskAssessorAgent.assess` has severity
HIGH or MEDIUM and an identifier from the closed six-element set, and the
assessment's risk level is LOW if and only if its flag list is empty (the
final else-LOW branch of `calculate_risk_level` is unreachable on
`assess` outputs). -/
theorem assess_flag_invariant_and_low_iff_no_flags
    (fm : Metrics ℚ) (ed : ExtractedData ℚ) :
    (∀ f ∈ (RiskAssessorAgent.assess fm ed).flags,
      (f.severity = "HIGH" ∨ f.severity = "MEDIUM") ∧
      f.flag ∈ ["LOW_DSCR", "UNSTABLE_REVENUE", "CASH_FLOW_ISSUES",
                "HIGH_LEVERAGE", "NEGATIVE_CASH_FLOW", "DECLINING_REVENUE"]) ∧
    ((RiskAssessorAgent.assess fm ed).risk_level = "LOW" ↔
      (RiskAssessorAgent.assess fm ed).flags = []) := by
  refine ⟨assess_flags_wf fm ed, ?_, ?_⟩
  · intro hlow
    by_contra hne
    exact calculate_risk_level_ne_low hne
      (fun f hf => (assess_flags_wf fm ed f hf).1) hlow
  · intro h
    have hlvl : (RiskAssessorAgent.assess fm ed).risk_level =
        calculate_risk_level (RiskAssessorAgent.assess fm ed).flags := rfl
    rw [hlvl, h]
    rfl

/-- C5 counterexample: an internal fault during `quick_score`'s
deterministic pipeline is not surfaced as status failed: the orchestrator
swallows it into the score 0 and the `/quick-score` route labels the
response with status completed. -/
theorem quick_score_swallows_fault :
    LoanAnalysisOrchestrator.quick_score_run
      ⟨⟨[], [], 0⟩, none, 0⟩ ⟨"Acme LLC", "Retail", 0, 0, 60, 0⟩
      (some "boom") = 0 ∧
    (quick_score_loan ⟨⟨[], [], 0⟩, none, 0⟩ ⟨"Acme LLC", "Retail", 0, 0, 60, 0⟩
      (some "boom")).status = "completed" ∧
    (quick_score_loan ⟨⟨[], [], 0⟩, none, 0⟩ ⟨"Acme LLC", "Retail", 0, 0, 60, 0⟩
      (some "boom")).status ≠ "failed" := by
  refine ⟨rfl, rfl, ?_⟩
  intro h
  exact absurd (show "completed" = "failed" from h) (by decide)

/-- C5 (amended): `analyze_loan_package` surfaces an internal pipeline
fault as status failed with the fault's description attached (and reports
completed when no fault occurs), while `quick_score` catches the same
fault and returns the score 0, which its route reports with status
completed — that entry point converts the fault into a normal-looking
successful result. -/
theorem pipeline_fault_handling (ed : ExtractedData ℝ) (bi : BusinessInfo ℝ)
    (e : String) :
    (LoanAnalysisOrchestrator.analyze_loan_package_run ed bi (some e)).status =
      "failed" ∧
    (LoanAnalysisOrchestrator.analyze_loan_package_run ed bi (some e)).error =
      some e ∧
    (LoanAnalysisOrchestrator.analyze_loan_package_run ed bi none).status =
      "completed" ∧
    LoanAnalysisOrchestrator.quick_score_run ed bi (some e) = 0 ∧
    (quick_score_loan ed bi (some e)).status = "completed" :=
  ⟨rfl, rfl, rfl, rfl, rfl⟩

/-- C9: on empty deposit and withdrawal series with no tax data,
`analyze` returns all ratio metrics equal to 0.0 and a stability score
determined by business age, NSF count, and the zero trend alone. -/
theorem analyze_empty_series_defaults (nsf : ℤ) (existing_debt : ℝ)
    (lr : LoanRequest ℝ) :
    (FinancialAnalyzerAgent.analyze ⟨⟨[], [], nsf⟩, none, existing_debt⟩
        lr).avg_monthly_revenue = 0 ∧
    (FinancialAnalyzerAgent.analyze ⟨⟨[], [], nsf⟩, none, existing_debt⟩
        lr).revenue_volatility = 0 ∧
    (FinancialAnalyzerAgent.analyze ⟨⟨[], [], nsf⟩, none, existing_debt⟩
        lr).avg_monthly_cash_flow = 0 ∧
    (FinancialAnalyzerAgent.analyze ⟨⟨[], [], nsf⟩, none, existing_debt⟩
        lr).dscr = 0 ∧
    (FinancialAnalyzerAgent.analyze ⟨⟨[], [], nsf⟩, none, existing_debt⟩
        lr).debt_to_revenue = 0 ∧
    (FinancialAnalyzerAgent.analyze ⟨⟨[], [], nsf⟩, none, existing_debt⟩
        lr).annual_revenue = 0 ∧
    (FinancialAnalyzerAgent.analyze ⟨⟨[], [], nsf⟩, none, existing_debt⟩
        lr).revenue_trend = 0 ∧
    (FinancialAnalyzerAgent.analyze ⟨⟨[], [], nsf⟩, none, existing_debt⟩
        lr).stability_score =
      calculate_stability_score (0 : ℝ) lr.business_age_years nsf (0 : ℝ) := by
  unfold FinancialAnalyzerAgent.analyze
  simp [calculate_avg_monthly_revenue, calculate_revenue_volatility,
    calculate_debt_to_revenue_ratio, pyRound_zero, zero_div, ite_self]

/-- C4: the quick-score entry point computes exactly the underwriting
score of the full analysis entry point on the same inputs — both run the
same analyzer and risk assessor and the same score function, so the two
paths cannot diverge in their scoring math. -/
theorem quick_score_eq_full_analysis_score (ed : ExtractedData ℝ)
    (bi : BusinessInfo ℝ) :
    LoanAnalysisOrchestrator.quick_score ed bi =
      (LoanAnalysisOrchestrator.analyze_loan_package ed bi).underwriting_score :=
  rfl

theorem list_sum_map_mul_left (k : ℝ) (f : ℝ → ℝ) (L : List ℝ) :
    (L.map (fun x => k * f x)).sum = k * (L.map f).sum := by
  induction L with
  | nil => simp
  | cons a t ih => simp [ih, mul_add]

/-- C8: revenue volatility is scale-invariant: multiplying every deposit
by a positive scalar leaves `calculate_revenue_volatility` unchanged. -/
theorem revenue_volatility_scale_invariant (D : List ℝ) (k : ℝ) (hk : 0 < k) :
    calculate_revenue_volatility (D.map (fun x => k * x)) =
      calculate_revenue_volatility D := by
  have hk0 : k ≠ 0 := ne_of_gt hk
  simp only [calculate_revenue_volatility, List.length_map]
  by_cases hlen : D.length ≤ 1
  · simp [hlen]
  · rw [if_neg hlen, if_neg hlen]
    have hsum : (D.map (fun x => k * x)).sum = k * D.sum := by
      simpa using list_sum_map_mul_left k (fun x => x) D
    have hmean' : (D.map (fun x => k * x)).sum / (D.length : ℝ) =
        k * (D.sum / (D.length : ℝ)) := by
      rw [hsum]; ring
    rw [hmean']
    by_cases hm : D.sum / (D.length : ℝ) = 0
    · rw [if_pos hm, if_pos (by rw [hm, mul_zero])]
    · rw [if_neg hm, if_neg (mul_ne_zero hk0 hm)]
      congr 1
      have hvar : ((D.map (fun x => k * x)).map
            (fun x => (x - k * (D.sum / (D.length : ℝ))) ^ 2)).sum =
          k ^ 2 * ((D.map (fun x => (x - D.sum / (D.length : ℝ)) ^ 2)).sum) := by
        rw [List.map_map]
        have hcomp : ((fun x => (x - k * (D.sum / (D.length : ℝ))) ^ 2) ∘
              fun x => k * x) =
            fun x => k ^ 2 * ((x - D.sum / (D.length : ℝ)) ^ 2) := by
          funext x
          simp only [Function.comp]
          ring
        rw [hcomp, list_sum_map_mul_left]
      rw [hvar]
      rw [show k ^ 2 * ((D.map (fun x => (x - D.sum / (D.length : ℝ)) ^ 2)).sum) /
            ((D.length : ℝ) - 1) =
          k ^ 2 * (((D.map (fun x => (x - D.sum / (D.length : ℝ)) ^ 2)).sum) /
            ((D.length : ℝ) - 1)) from by ring]
      rw [Real.sqrt_mul (sq_nonneg k), Real.sqrt_sq hk.le]
      rw [mul_div_mul_left _ _ hk0]

/-- Witness for the scale-invariance theorem at a concrete series and
scalar. -/
theorem revenue_volatility_scale_invariant_witness :
    (0 : ℝ) < 2 ∧
    calculate_revenue_volatility (([1, 2] : List ℝ).map (fun x => (2 : ℝ) * x)) =
      calculate_revenue_volatility ([1, 2] : List ℝ) :=
  ⟨two_pos, revenue_volatility_scale_invariant [1, 2] 2 two_pos⟩
